import Mathlib

/-!
# Order confirmation modal: the `show.bs.modal` handler

A shallow embedding of `static/js/modal-handler.js`.  The script registers one
handler on every element whose id starts with `cancelModal-`.  When such a
modal is about to be shown the handler reads two data values off the button
that opened it, rewrites the `action` attribute of the two forms of the modal,
sets the text of the message paragraph and shows or hides the two forms.
Showing and hiding go through the inline style of a form, as jQuery does it.

The DOM is passed explicitly: `Page` holds the data of the triggering button
and the modal, and `handler` maps a page to the page after the event, or to
the exception the handler raises.
-/

namespace ModalHandler

/-! ## JavaScript values -/

/-- The exception a string conversion can raise. -/
inductive JsError where
  | typeError
  deriving DecidableEq

/-- The values the two locals `orderId` and `status` can hold, as far as this
handler can tell values apart: it renders `orderId` inside template literals
and compares `status` with `===` against string literals.  A Number is carried
by the text its string conversion gives.  An Object or Symbol is carried by the
outcome of its string conversion: the text, or `none` when the conversion
raises a TypeError. -/
inductive JsValue where
  | undefined
  | null
  | bool (b : Bool)
  | num (text : String)
  | str (s : String)
  | object (text : Option String)
  deriving DecidableEq

/-- The string conversion applied to a value substituted in a template literal. -/
def toStr : JsValue → Except JsError String
  | .undefined => .ok "undefined"
  | .null => .ok "null"
  | .bool true => .ok "true"
  | .bool false => .ok "false"
  | .num text => .ok text
  | .str s => .ok s
  | .object (some text) => .ok text
  | .object none => .error .typeError

/-- The comparison `v === 'lit'` with a string literal on the right: true only for a
string value with the same characters, never for a value of another type. -/
def strictEquals (v : JsValue) (lit : String) : Bool :=
  match v with
  | .str s => decide (s = lit)
  | _ => false

/-- The template literal with one substitution, `pre${v}post`. -/
def template (pre : String) (v : JsValue) (post : String) : Except JsError String := do
  let text ← toStr v
  pure (pre ++ text ++ post)

/-! ## The DOM the handler touches -/

/-- Set an attribute: replace the value where the name is present, append otherwise. -/
def setAttr (name value : String) : List (String × String) → List (String × String)
  | [] => [(name, value)]
  | (k, v) :: rest =>
    if k = name then (name, value) :: rest else (k, v) :: setAttr name value rest

/-- Read an attribute. -/
def getAttr (name : String) : List (String × String) → Option String
  | [] => none
  | (k, v) :: rest => if k = name then some v else getAttr name rest

/-- Remove every entry of the given name. -/
def removeAttr (name : String) : List (String × String) → List (String × String)
  | [] => []
  | (k, v) :: rest =>
    if k = name then removeAttr name rest else (k, v) :: removeAttr name rest

/-- An element, as far as jQuery reads and writes it here.  `attributes` holds the
attributes other than `style`; `style` holds the declarations of the inline style (the
text of the `style` attribute) in order, so `color: red; display: none;` is
`[("color", "red"), ("display", "none")]`.  `cascadeHidden` says whether the style sheets
give the element `display: none` when it has no inline display of its own.  `savedDisplay`
is the inline display jQuery remembers in its private data when it hides the element; it
never remembers `none`. -/
structure Element where
  attributes : List (String × String)
  style : List (String × String)
  textContent : String
  cascadeHidden : Bool
  savedDisplay : Option { value : String // value ≠ "none" }
  deriving DecidableEq

/-- The value of `elem.style.display`: the inline display, empty when there is none. -/
def Element.inlineDisplay (e : Element) : String :=
  (getAttr "display" e.style).getD ""

/-- The assignment `elem.style.display = value`: the empty value removes the declaration,
any other value replaces it or is added after the other declarations. -/
def Element.setInlineDisplay (value : String) (e : Element) : Element :=
  { e with style :=
      if value = "" then removeAttr "display" e.style else setAttr "display" value e.style }

/-- The test jQuery makes before showing: the inline style trumps all, and without an inline
display the computed style decides. -/
def Element.isHiddenWithinTree (e : Element) : Bool :=
  decide (e.inlineDisplay = "none") || (decide (e.inlineDisplay = "") && e.cascadeHidden)

/-- The element is displayed as far as its own display goes: jQuery does not find it hidden. -/
def Element.displayed (e : Element) : Bool :=
  !e.isHiddenWithinTree

/-- The display jQuery falls back to for a form or paragraph hidden by the style sheets. -/
def defaultDisplay : String := "block"

/-- The remembered display as `.show()` reads it, `dataPriv.get(elem, "display") || null`:
an empty remembered value counts as none. -/
def Element.rememberedDisplay (e : Element) : Option String :=
  match e.savedDisplay with
  | some ⟨value, _⟩ => if value = "" then none else some value
  | none => none

/-- The setter `.attr(name, value)`, for a name other than `style` (the handler passes
`action` only). -/
def Element.attr (name value : String) (e : Element) : Element :=
  { e with attributes := setAttr name value e.attributes }

/-- The setter `.text(value)`. -/
def Element.text (value : String) (e : Element) : Element :=
  { e with textContent := value }

/-- The call `.show()`, as jQuery 3 runs it on one element.  An inline `display: none` is
replaced by the remembered display, or removed when nothing is remembered; an element left
without inline display that the style sheets still hide gets the default display. -/
def Element.show (e : Element) : Element :=
  let restored := if e.inlineDisplay = "none" then e.rememberedDisplay else none
  let cleared :=
    if e.inlineDisplay = "none" ∧ restored = none then e.setInlineDisplay "" else e
  let value :=
    if cleared.inlineDisplay = "" ∧ cleared.isHiddenWithinTree = true then some defaultDisplay
    else restored
  match value with
  | some display => cleared.setInlineDisplay display
  | none => cleared

/-- The call `.hide()`, as jQuery 3 runs it on one element.  Unless the inline display is
already `none`, jQuery remembers the inline display it overwrites and writes
`display: none` into the inline style. -/
def Element.hide (e : Element) : Element :=
  if h : e.inlineDisplay = "none" then e
  else ({ e with savedDisplay := some ⟨e.inlineDisplay, h⟩ }).setInlineDisplay "none"

/-- Modelled from the spec: the markup of the modal is not part of the sources; the
dialog contract gives it one text element for the message (`.modal-body p`) and two
submission forms told apart by role (`form.reactivate-form`, `form.delete-form`).
The `id` is the one the selector `[id^="cancelModal-"]` matched. -/
structure Dialog where
  id : String
  message : Element
  reactivateForm : Element
  deleteForm : Element
  deriving DecidableEq

/-- The two data values the handler reads off the triggering button:
`button.data('order-id')` and `button.data('status')`. -/
structure TriggerContext where
  orderId : JsValue
  status : JsValue
  deriving DecidableEq

/-- The part of the document one event involves: the data of the button in
`event.relatedTarget` and the modal in `this`. -/
structure Page where
  button : TriggerContext
  modal : Dialog
  deriving DecidableEq

/-! ## The handler -/

/-- The function bound to `show.bs.modal`, statement by statement.  A template literal is
evaluated before the setter that receives it, so an exception leaves no partial update
behind the first one. -/
def handler (page : Page) : Except JsError Page := do
  let orderId := page.button.orderId
  let status := page.button.status
  let modal := page.modal
  -- Update form actions dynamically
  let reactivateAction ← template "/orders/" orderId "/reactivate"
  let modal := { modal with reactivateForm := modal.reactivateForm.attr "action" reactivateAction }
  let deleteAction ← template "/orders/" orderId "/delete"
  let modal := { modal with deleteForm := modal.deleteForm.attr "action" deleteAction }
  if strictEquals status "CANCELED" then
    let modal := { modal with
      message := modal.message.text "Do you want to reactivate or delete this order?" }
    let modal := { modal with reactivateForm := modal.reactivateForm.show }
    let modal := { modal with deleteForm := modal.deleteForm.show }
    pure { page with modal := modal }
  else if strictEquals status "NEW" then
    let modal := { modal with
      message := modal.message.text "Are you sure you want to cancel this order?" }
    let modal := { modal with reactivateForm := modal.reactivateForm.hide }
    let cancelAction ← template "/orders/" orderId "/cancel"
    let modal := { modal with deleteForm := (modal.deleteForm.attr "action" cancelAction).show }
    pure { page with modal := modal }
  else
    let modal := { modal with message := modal.message.text "This action is not allowed." }
    let modal := { modal with reactivateForm := modal.reactivateForm.hide }
    let modal := { modal with deleteForm := modal.deleteForm.hide }
    pure { page with modal := modal }

/-- One dialog-open event: the handler runs on the modal with the data of the button
that requested it, and leaves the modal behind. -/
def present (context : TriggerContext) (dialog : Dialog) : Except JsError Dialog := do
  let page ← handler { button := context, modal := dialog }
  pure page.modal

/-- A sequence of dialog-open events on the same modal, oldest first. -/
def presentAll : List TriggerContext → Dialog → Except JsError Dialog
  | [], dialog => pure dialog
  | context :: rest, dialog => do
    let next ← present context dialog
    presentAll rest next

/-! ## What the user sees -/

/-- The five fields the spec calls the presentation of the dialog. -/
structure DialogPresentation where
  messageText : String
  primaryActionVisible : Bool
  primaryActionTarget : Option String
  secondaryActionVisible : Bool
  secondaryActionTarget : Option String
  deriving DecidableEq

/-- Read the presentation off a modal: the reactivate form is the primary action, the
delete form the secondary one. -/
def presentation (dialog : Dialog) : DialogPresentation :=
  { messageText := dialog.message.textContent
    primaryActionVisible := dialog.reactivateForm.displayed
    primaryActionTarget := getAttr "action" dialog.reactivateForm.attributes
    secondaryActionVisible := dialog.deleteForm.displayed
    secondaryActionTarget := getAttr "action" dialog.deleteForm.attributes }

/-- The text ends in the given characters. -/
def endsIn (text ending : String) : Prop := ending.data <:+ text.data

instance (text ending : String) : Decidable (endsIn text ending) := by
  unfold endsIn; infer_instance

/-! ## Sample data -/

/-- A modal as the server renders it: no action on the forms yet. -/
def freshDialog : Dialog :=
  { id := "cancelModal-42"
    message := { attributes := [], style := [], textContent := "", cascadeHidden := false,
                 savedDisplay := none }
    reactivateForm := { attributes := [("class", "reactivate-form"), ("method", "post")],
                        style := [], textContent := "Reactivate", cascadeHidden := false,
                        savedDisplay := none }
    deleteForm := { attributes := [("class", "delete-form"), ("method", "post")],
                    style := [], textContent := "Delete", cascadeHidden := false,
                    savedDisplay := none } }

/-- The sample modal after "CANCELED" for order 1 and then "NEW" for order 2: hiding the
reactivate form wrote `display: none` into its inline style and remembered the empty
display it had. -/
def sampleAfter : Dialog :=
  { id := "cancelModal-42"
    message := { attributes := [], style := [],
                 textContent := "Are you sure you want to cancel this order?",
                 cascadeHidden := false, savedDisplay := none }
    reactivateForm :=
      { attributes := [("class", "reactivate-form"), ("method", "post"),
          ("action", "/orders/2/reactivate")],
        style := [("display", "none")],
        textContent := "Reactivate", cascadeHidden := false,
        savedDisplay := some ⟨"", by decide⟩ }
    deleteForm :=
      { attributes := [("class", "delete-form"), ("method", "post"),
          ("action", "/orders/2/cancel")],
        style := [],
        textContent := "Delete", cascadeHidden := false, savedDisplay := none } }

/-- A modal whose forms start hidden and styled: the reactivate form carries
`color: red; display: none;`, the delete form is hidden by the style sheets alone. -/
def styledDialog : Dialog :=
  { id := "cancelModal-7"
    message := { attributes := [("class", "lead")], style := [("margin", "0")],
                 textContent := "", cascadeHidden := false, savedDisplay := none }
    reactivateForm := { attributes := [("class", "reactivate-form"), ("method", "post")],
                        style := [("color", "red"), ("display", "none")],
                        textContent := "Reactivate", cascadeHidden := false,
                        savedDisplay := none }
    deleteForm := { attributes := [("class", "delete-form"), ("method", "post")],
                    style := [("color", "red")], textContent := "Delete",
                    cascadeHidden := true, savedDisplay := none } }

/-! ## Attribute lists -/

theorem getAttr_setAttr_self (name value : String) (attrs : List (String × String)) :
    getAttr name (setAttr name value attrs) = some value := by
  induction attrs with
  | nil => simp [setAttr, getAttr]
  | cons head rest ih =>
    obtain ⟨k, v⟩ := head
    by_cases h : k = name
    · simp [setAttr, getAttr, h]
    · simp [setAttr, getAttr, h, ih]

theorem getAttr_setAttr_of_ne {name other : String} (h : other ≠ name) (value : String)
    (attrs : List (String × String)) :
    getAttr other (setAttr name value attrs) = getAttr other attrs := by
  induction attrs with
  | nil => simp [setAttr, getAttr, Ne.symm h]
  | cons head rest ih =>
    obtain ⟨k, v⟩ := head
    by_cases hk : k = name
    · subst hk
      simp [setAttr, getAttr, Ne.symm h]
    · by_cases ho : k = other
      · subst ho
        simp [setAttr, getAttr, hk]
      · simp [setAttr, getAttr, hk, ho, ih]

theorem setAttr_setAttr (name value older : String) (attrs : List (String × String)) :
    setAttr name value (setAttr name older attrs) = setAttr name value attrs := by
  induction attrs with
  | nil => simp [setAttr]
  | cons head rest ih =>
    obtain ⟨k, v⟩ := head
    by_cases h : k = name
    · simp [setAttr, h]
    · simp [setAttr, h, ih]

theorem getAttr_removeAttr_self (name : String) (attrs : List (String × String)) :
    getAttr name (removeAttr name attrs) = none := by
  induction attrs with
  | nil => simp [removeAttr, getAttr]
  | cons head rest ih =>
    obtain ⟨k, v⟩ := head
    by_cases h : k = name
    · simp [removeAttr, h, ih]
    · simp [removeAttr, getAttr, h, ih]

theorem getAttr_removeAttr_of_ne {name other : String} (h : other ≠ name)
    (attrs : List (String × String)) :
    getAttr other (removeAttr name attrs) = getAttr other attrs := by
  induction attrs with
  | nil => simp [removeAttr]
  | cons head rest ih =>
    obtain ⟨k, v⟩ := head
    by_cases hk : k = name
    · subst hk
      simp [removeAttr, getAttr, Ne.symm h, ih]
    · by_cases ho : k = other
      · subst ho
        simp [removeAttr, getAttr, hk]
      · simp [removeAttr, getAttr, hk, ho, ih]

/-! ## Showing and hiding one element -/

theorem inlineDisplay_setInlineDisplay (value : String) (e : Element) :
    (e.setInlineDisplay value).inlineDisplay = value := by
  by_cases h : value = ""
  · simp [Element.setInlineDisplay, Element.inlineDisplay, h, getAttr_removeAttr_self]
  · simp [Element.setInlineDisplay, Element.inlineDisplay, h, getAttr_setAttr_self]

theorem style_setInlineDisplay_of_ne (value : String) (e : Element) {property : String}
    (h : property ≠ "display") :
    getAttr property (e.setInlineDisplay value).style = getAttr property e.style := by
  by_cases hv : value = ""
  · simp [Element.setInlineDisplay, hv, getAttr_removeAttr_of_ne h]
  · simp [Element.setInlineDisplay, hv, getAttr_setAttr_of_ne h]

theorem rememberedDisplay_ne (e : Element) (value : String)
    (h : e.rememberedDisplay = some value) : value ≠ "none" ∧ value ≠ "" := by
  unfold Element.rememberedDisplay at h
  cases hs : e.savedDisplay with
  | none => simp [hs] at h
  | some saved =>
    obtain ⟨v, hv⟩ := saved
    by_cases he : v = ""
    · simp [hs, he] at h
    · simp [hs, he] at h
      subst h
      exact ⟨hv, he⟩

theorem cascadeHidden_setInlineDisplay (value : String) (e : Element) :
    (e.setInlineDisplay value).cascadeHidden = e.cascadeHidden := rfl

/-- The five ways `.show()` can go. -/
theorem show_restore (e : Element) (value : String) (hnone : e.inlineDisplay = "none")
    (hr : e.rememberedDisplay = some value) : e.show = e.setInlineDisplay value := by
  obtain ⟨_, h2⟩ := rememberedDisplay_ne e value hr
  simp [Element.show, hnone, hr]

theorem show_clear_default (e : Element) (hnone : e.inlineDisplay = "none")
    (hr : e.rememberedDisplay = none) (hc : e.cascadeHidden = true) :
    e.show = (e.setInlineDisplay "").setInlineDisplay defaultDisplay := by
  simp [Element.show, hnone, hr, hc, Element.isHiddenWithinTree,
    inlineDisplay_setInlineDisplay, cascadeHidden_setInlineDisplay]

theorem show_clear (e : Element) (hnone : e.inlineDisplay = "none")
    (hr : e.rememberedDisplay = none) (hc : e.cascadeHidden = false) :
    e.show = e.setInlineDisplay "" := by
  simp [Element.show, hnone, hr, hc, Element.isHiddenWithinTree,
    inlineDisplay_setInlineDisplay, cascadeHidden_setInlineDisplay]

theorem show_default (e : Element) (hempty : e.inlineDisplay = "")
    (hc : e.cascadeHidden = true) : e.show = e.setInlineDisplay defaultDisplay := by
  simp [Element.show, hempty, hc, Element.isHiddenWithinTree]

theorem show_same (e : Element) (hnone : e.inlineDisplay ≠ "none")
    (h : e.inlineDisplay ≠ "" ∨ e.cascadeHidden = false) : e.show = e := by
  rcases h with h | h
  · simp [Element.show, hnone, h]
  · simp [Element.show, hnone, h, Element.isHiddenWithinTree]

/-- Every `.show()` is the identity or one or two assignments to the inline display. -/
theorem show_cases (e : Element) :
    e.show = e ∨ (∃ value, e.show = e.setInlineDisplay value) ∨
      e.show = (e.setInlineDisplay "").setInlineDisplay defaultDisplay := by
  by_cases hnone : e.inlineDisplay = "none"
  · cases hr : e.rememberedDisplay with
    | some value => exact Or.inr (Or.inl ⟨value, show_restore e value hnone hr⟩)
    | none =>
      cases hc : e.cascadeHidden with
      | true => exact Or.inr (Or.inr (show_clear_default e hnone hr hc))
      | false => exact Or.inr (Or.inl ⟨"", show_clear e hnone hr hc⟩)
  · by_cases hempty : e.inlineDisplay = ""
    · cases hc : e.cascadeHidden with
      | true => exact Or.inr (Or.inl ⟨defaultDisplay, show_default e hempty hc⟩)
      | false => exact Or.inl (show_same e hnone (Or.inr hc))
    · exact Or.inl (show_same e hnone (Or.inl hempty))

/-- After `.show()` jQuery does not find the element hidden. -/
theorem displayed_show (e : Element) : e.show.displayed = true := by
  by_cases hnone : e.inlineDisplay = "none"
  · cases hr : e.rememberedDisplay with
    | some value =>
      obtain ⟨h1, h2⟩ := rememberedDisplay_ne e value hr
      rw [show_restore e value hnone hr]
      simp [Element.displayed, Element.isHiddenWithinTree, inlineDisplay_setInlineDisplay, h1, h2]
    | none =>
      cases hc : e.cascadeHidden with
      | true =>
        rw [show_clear_default e hnone hr hc]
        simp [Element.displayed, Element.isHiddenWithinTree, inlineDisplay_setInlineDisplay,
          defaultDisplay]
      | false =>
        rw [show_clear e hnone hr hc]
        simp [Element.displayed, Element.isHiddenWithinTree, inlineDisplay_setInlineDisplay,
          cascadeHidden_setInlineDisplay, hc]
  · by_cases hempty : e.inlineDisplay = ""
    · cases hc : e.cascadeHidden with
      | true =>
        rw [show_default e hempty hc]
        simp [Element.displayed, Element.isHiddenWithinTree, inlineDisplay_setInlineDisplay,
          defaultDisplay]
      | false =>
        rw [show_same e hnone (Or.inr hc)]
        simp [Element.displayed, Element.isHiddenWithinTree, hnone, hc]
    · rw [show_same e hnone (Or.inl hempty)]
      simp [Element.displayed, Element.isHiddenWithinTree, hnone, hempty]

/-- After `.hide()` the inline display is `none`. -/
theorem inlineDisplay_hide (e : Element) : e.hide.inlineDisplay = "none" := by
  unfold Element.hide
  by_cases h : e.inlineDisplay = "none"
  · simp [h]
  · simp [h, inlineDisplay_setInlineDisplay]

theorem displayed_hide (e : Element) : e.hide.displayed = false := by
  simp [Element.displayed, Element.isHiddenWithinTree, inlineDisplay_hide]

/-- On an element jQuery does not find hidden, `.show()` changes nothing. -/
theorem show_of_displayed (e : Element) (h : e.displayed = true) : e.show = e := by
  simp only [Element.displayed, Element.isHiddenWithinTree, Bool.not_eq_true',
    Bool.or_eq_false_iff, Bool.and_eq_false_imp, decide_eq_false_iff_not,
    decide_eq_true_eq] at h
  apply show_same e h.1
  by_cases hempty : e.inlineDisplay = ""
  · exact Or.inr (h.2 hempty)
  · exact Or.inl hempty

theorem show_show (e : Element) : e.show.show = e.show :=
  show_of_displayed e.show (displayed_show e)

theorem hide_hide (e : Element) : e.hide.hide = e.hide := by
  have h := inlineDisplay_hide e
  rw [Element.hide.eq_def e.hide]
  simp [h]

theorem attributes_show (e : Element) : e.show.attributes = e.attributes := by
  rcases show_cases e with h | ⟨value, h⟩ | h <;> rw [h] <;> rfl

theorem textContent_show (e : Element) : e.show.textContent = e.textContent := by
  rcases show_cases e with h | ⟨value, h⟩ | h <;> rw [h] <;> rfl

theorem cascadeHidden_show (e : Element) : e.show.cascadeHidden = e.cascadeHidden := by
  rcases show_cases e with h | ⟨value, h⟩ | h <;> rw [h] <;> rfl

theorem style_show_of_ne (e : Element) {property : String} (h : property ≠ "display") :
    getAttr property e.show.style = getAttr property e.style := by
  rcases show_cases e with hs | ⟨value, hs⟩ | hs <;> rw [hs]
  · exact style_setInlineDisplay_of_ne _ _ h
  · rw [style_setInlineDisplay_of_ne _ _ h, style_setInlineDisplay_of_ne _ _ h]

theorem attributes_hide (e : Element) : e.hide.attributes = e.attributes := by
  unfold Element.hide
  split <;> rfl

theorem textContent_hide (e : Element) : e.hide.textContent = e.textContent := by
  unfold Element.hide
  split <;> rfl

theorem cascadeHidden_hide (e : Element) : e.hide.cascadeHidden = e.cascadeHidden := by
  unfold Element.hide
  split <;> rfl

theorem style_hide_of_ne (e : Element) {property : String} (h : property ≠ "display") :
    getAttr property e.hide.style = getAttr property e.style := by
  unfold Element.hide
  split
  · rfl
  · exact style_setInlineDisplay_of_ne _ _ h

/-- What `.hide()` and `.show()` write on concrete elements: hiding adds `display: none`
after the declarations already there and remembers the display it overwrote; showing an
element hidden that way removes the declaration again, or restores a remembered display;
showing an element the style sheets hide writes the default display. -/
theorem hide_show_samples :
    (Element.hide ⟨[], [], "", false, none⟩).style = [("display", "none")] ∧
    (Element.hide ⟨[], [("color", "red")], "", false, none⟩).style
      = [("color", "red"), ("display", "none")] ∧
    (Element.hide ⟨[], [], "", false, none⟩).show.style = [] ∧
    (Element.hide ⟨[], [("display", "flex")], "", false, none⟩).show.style
      = [("display", "flex")] ∧
    (Element.show ⟨[], [("color", "red")], "", true, none⟩).style
      = [("color", "red"), ("display", "block")] ∧
    (Element.show ⟨[], [("color", "red"), ("display", "none")], "", false, none⟩).style
      = [("color", "red")] := by
  refine ⟨rfl, rfl, rfl, rfl, rfl, rfl⟩

/-- Writing an attribute and showing commute: the one touches the attributes, the other the
inline style. -/
theorem show_attr (name value : String) (e : Element) :
    (e.attr name value).show = e.show.attr name value := by
  have hi : (e.attr name value).inlineDisplay = e.inlineDisplay := rfl
  have hm : (e.attr name value).rememberedDisplay = e.rememberedDisplay := rfl
  have hk : (e.attr name value).cascadeHidden = e.cascadeHidden := rfl
  by_cases hnone : e.inlineDisplay = "none"
  · cases hr : e.rememberedDisplay with
    | some display =>
      rw [show_restore e display hnone hr,
        show_restore (e.attr name value) display (hi.trans hnone) (hm.trans hr)]
      rfl
    | none =>
      cases hc : e.cascadeHidden with
      | true =>
        rw [show_clear_default e hnone hr hc,
          show_clear_default (e.attr name value) (hi.trans hnone) (hm.trans hr) (hk.trans hc)]
        rfl
      | false =>
        rw [show_clear e hnone hr hc,
          show_clear (e.attr name value) (hi.trans hnone) (hm.trans hr) (hk.trans hc)]
        rfl
  · by_cases hempty : e.inlineDisplay = ""
    · cases hc : e.cascadeHidden with
      | true =>
        rw [show_default e hempty hc,
          show_default (e.attr name value) (hi.trans hempty) (hk.trans hc)]
        rfl
      | false =>
        rw [show_same e hnone (Or.inr hc), show_same (e.attr name value) hnone (Or.inr hc)]
    · rw [show_same e hnone (Or.inl hempty), show_same (e.attr name value) hnone (Or.inl hempty)]

theorem hide_attr (name value : String) (e : Element) :
    (e.attr name value).hide = e.hide.attr name value := by
  have hi : (e.attr name value).inlineDisplay = e.inlineDisplay := rfl
  unfold Element.hide
  by_cases h : e.inlineDisplay = "none"
  · simp [h, hi]
  · simp only [hi, h, dite_false]
    rfl

theorem attr_attr (name value older : String) (e : Element) :
    (e.attr name older).attr name value = e.attr name value := by
  simp [Element.attr, setAttr_setAttr]

theorem displayed_attr (name value : String) (e : Element) :
    (e.attr name value).displayed = e.displayed := rfl

theorem attributes_attr (name value : String) (e : Element) :
    (e.attr name value).attributes = setAttr name value e.attributes := rfl

/-! ## The handler, branch by branch -/

theorem strictEquals_iff (v : JsValue) (lit : String) :
    strictEquals v lit = true ↔ v = .str lit := by
  cases v <;> simp [strictEquals]

/-- The page the handler leaves when the status is the string CANCELED. -/
theorem handler_canceled (page : Page) (id : String)
    (hid : toStr page.button.orderId = .ok id) (hst : page.button.status = .str "CANCELED") :
    handler page = .ok { page with modal :=
      { id := page.modal.id
        message := page.modal.message.text "Do you want to reactivate or delete this order?"
        reactivateForm :=
          (page.modal.reactivateForm.attr "action" ("/orders/" ++ id ++ "/reactivate")).show
        deleteForm := (page.modal.deleteForm.attr "action" ("/orders/" ++ id ++ "/delete")).show } } := by
  simp [handler, template, hid, hst, strictEquals, bind, Except.bind, pure, Except.pure]

/-- The page the handler leaves when the status is the string NEW. -/
theorem handler_new (page : Page) (id : String)
    (hid : toStr page.button.orderId = .ok id) (hst : page.button.status = .str "NEW") :
    handler page = .ok { page with modal :=
      { id := page.modal.id
        message := page.modal.message.text "Are you sure you want to cancel this order?"
        reactivateForm :=
          (page.modal.reactivateForm.attr "action" ("/orders/" ++ id ++ "/reactivate")).hide
        deleteForm := (((page.modal.deleteForm.attr "action" ("/orders/" ++ id ++ "/delete")).attr
          "action" ("/orders/" ++ id ++ "/cancel"))).show } } := by
  simp [handler, template, hid, hst, strictEquals, bind, Except.bind, pure, Except.pure]

/-- The page the handler leaves for every other status. -/
theorem handler_other (page : Page) (id : String)
    (hid : toStr page.button.orderId = .ok id) (hnew : page.button.status ≠ .str "NEW")
    (hcan : page.button.status ≠ .str "CANCELED") :
    handler page = .ok { page with modal :=
      { id := page.modal.id
        message := page.modal.message.text "This action is not allowed."
        reactivateForm :=
          (page.modal.reactivateForm.attr "action" ("/orders/" ++ id ++ "/reactivate")).hide
        deleteForm := (page.modal.deleteForm.attr "action" ("/orders/" ++ id ++ "/delete")).hide } } := by
  have h1 : strictEquals page.button.status "CANCELED" = false := by
    rw [← Bool.not_eq_true, strictEquals_iff]; exact hcan
  have h2 : strictEquals page.button.status "NEW" = false := by
    rw [← Bool.not_eq_true, strictEquals_iff]; exact hnew
  simp [handler, template, hid, h1, h2, bind, Except.bind, pure, Except.pure]

/-- The handler raises exactly when the string conversion of the order id does. -/
theorem handler_error (page : Page) (e : JsError) (hid : toStr page.button.orderId = .error e) :
    handler page = .error e := by
  simp [handler, template, hid, bind, Except.bind]

/-- One event on a modal, for the three cases of the status. -/
theorem present_canceled (orderId : JsValue) (id : String) (dialog : Dialog)
    (hid : toStr orderId = .ok id) :
    present ⟨orderId, .str "CANCELED"⟩ dialog = .ok
      { id := dialog.id
        message := dialog.message.text "Do you want to reactivate or delete this order?"
        reactivateForm :=
          (dialog.reactivateForm.attr "action" ("/orders/" ++ id ++ "/reactivate")).show
        deleteForm := (dialog.deleteForm.attr "action" ("/orders/" ++ id ++ "/delete")).show } := by
  simp [present, handler_canceled ⟨⟨orderId, .str "CANCELED"⟩, dialog⟩ id hid rfl, bind,
    Except.bind, pure, Except.pure]

theorem present_new (orderId : JsValue) (id : String) (dialog : Dialog)
    (hid : toStr orderId = .ok id) :
    present ⟨orderId, .str "NEW"⟩ dialog = .ok
      { id := dialog.id
        message := dialog.message.text "Are you sure you want to cancel this order?"
        reactivateForm :=
          (dialog.reactivateForm.attr "action" ("/orders/" ++ id ++ "/reactivate")).hide
        deleteForm := ((dialog.deleteForm.attr "action" ("/orders/" ++ id ++ "/delete")).attr
          "action" ("/orders/" ++ id ++ "/cancel")).show } := by
  simp [present, handler_new ⟨⟨orderId, .str "NEW"⟩, dialog⟩ id hid rfl, bind,
    Except.bind, pure, Except.pure]

theorem present_other (orderId status : JsValue) (id : String) (dialog : Dialog)
    (hid : toStr orderId = .ok id) (hnew : status ≠ .str "NEW")
    (hcan : status ≠ .str "CANCELED") :
    present ⟨orderId, status⟩ dialog = .ok
      { id := dialog.id
        message := dialog.message.text "This action is not allowed."
        reactivateForm :=
          (dialog.reactivateForm.attr "action" ("/orders/" ++ id ++ "/reactivate")).hide
        deleteForm := (dialog.deleteForm.attr "action" ("/orders/" ++ id ++ "/delete")).hide } := by
  simp [present, handler_other ⟨⟨orderId, status⟩, dialog⟩ id hid hnew hcan, bind,
    Except.bind, pure, Except.pure]

theorem present_error (context : TriggerContext) (dialog : Dialog) (e : JsError)
    (hid : toStr context.orderId = .error e) : present context dialog = .error e := by
  simp [present, handler_error ⟨context, dialog⟩ e hid, bind, Except.bind]

/-- Every status is the string CANCELED, the string NEW, or neither. -/
theorem status_cases (status : JsValue) :
    status = .str "CANCELED" ∨ status = .str "NEW" ∨
      (status ≠ .str "NEW" ∧ status ≠ .str "CANCELED") := by
  by_cases h1 : status = .str "CANCELED"
  · exact Or.inl h1
  · by_cases h2 : status = .str "NEW"
    · exact Or.inr (Or.inl h2)
    · exact Or.inr (Or.inr ⟨h2, h1⟩)

/-! ## Target texts -/

theorem target_inj (before after a b : String)
    (h : before ++ a ++ after = before ++ b ++ after) : a = b := by
  have hd := congrArg String.data h
  simp only [String.data_append, List.append_cancel_left_eq, List.append_cancel_right_eq] at hd
  exact String.ext hd

theorem endsIn_append (text ending tail : String) (h : ending.data <:+ tail.data) :
    endsIn (text ++ tail) ending := by
  unfold endsIn
  rw [String.data_append]
  exact h.trans (List.suffix_append _ _)

theorem endsIn_unique (text e1 e2 : String) (h1 : endsIn text e1) (h2 : endsIn text e2)
    (hlen : e1.data.length = e2.data.length) : e1 = e2 := by
  unfold endsIn at h1 h2
  have hs : e1.data <:+ e2.data := List.suffix_of_suffix_length_le h1 h2 (le_of_eq hlen)
  exact String.ext (hs.eq_of_length hlen)

/-- Two texts with different endings of the same length differ. -/
theorem ne_of_endings (x y p q tp tq : String) (hp : p.data <:+ tp.data) (hq : q.data <:+ tq.data)
    (hlen : p.data.length = q.data.length) (hne : p ≠ q) : x ++ tp ≠ y ++ tq := by
  intro h
  have h1 : endsIn (x ++ tp) p := endsIn_append x p tp hp
  have h2 : endsIn (x ++ tp) q := by rw [h]; exact endsIn_append y q tq hq
  exact hne (endsIn_unique _ _ _ h1 h2 hlen)

theorem cancel_ne_delete (x y : String) : x ++ "/cancel" ≠ y ++ "/delete" :=
  ne_of_endings x y "/cancel" "/delete" "/cancel" "/delete" (by decide) (by decide)
    (by decide) (by decide)

theorem reactivate_ne_delete (x y : String) : x ++ "/reactivate" ≠ y ++ "/delete" :=
  ne_of_endings x y "ctivate" "/delete" "/reactivate" "/delete" (by decide) (by decide)
    (by decide) (by decide)

theorem reactivate_ne_cancel (x y : String) : x ++ "/reactivate" ≠ y ++ "/cancel" :=
  ne_of_endings x y "ctivate" "/cancel" "/reactivate" "/cancel" (by decide) (by decide)
    (by decide) (by decide)

/-- The presentation one event leaves, in closed form: it mentions the context only. -/
theorem presentation_present (context : TriggerContext) (id : String) (dialog : Dialog)
    (hid : toStr context.orderId = .ok id) :
    ∃ after, present context dialog = .ok after ∧ presentation after =
      { messageText :=
          if context.status = .str "CANCELED" then
            "Do you want to reactivate or delete this order?"
          else if context.status = .str "NEW" then "Are you sure you want to cancel this order?"
          else "This action is not allowed."
        primaryActionVisible := decide (context.status = .str "CANCELED")
        primaryActionTarget := some ("/orders/" ++ id ++ "/reactivate")
        secondaryActionVisible :=
          decide (context.status = .str "CANCELED" ∨ context.status = .str "NEW")
        secondaryActionTarget :=
          some (if context.status = .str "NEW" then "/orders/" ++ id ++ "/cancel"
            else "/orders/" ++ id ++ "/delete") } := by
  obtain ⟨orderId, status⟩ := context
  simp only at hid
  rcases status_cases status with h | h | ⟨h1, h2⟩
  · subst h
    refine ⟨_, present_canceled orderId id dialog hid, ?_⟩
    simp [presentation, Element.text, displayed_show, displayed_hide, attributes_show,
      attributes_hide, attributes_attr, getAttr_setAttr_self]
  · subst h
    refine ⟨_, present_new orderId id dialog hid, ?_⟩
    simp [presentation, Element.text, displayed_show, displayed_hide, attributes_show,
      attributes_hide, attributes_attr, getAttr_setAttr_self]
  · refine ⟨_, present_other orderId status id dialog hid h1 h2, ?_⟩
    simp [presentation, Element.text, displayed_show, displayed_hide, attributes_show,
      attributes_hide, attributes_attr, getAttr_setAttr_self, h1, h2]

/-! ## The policy table -/

/-- C1: for every order id whose string conversion gives `id` (every string gives itself),
an event with status exactly "CANCELED" on any modal leaves the message "Do you want to
reactivate or delete this order?", the reactivate form displayed with action
`/orders/{id}/reactivate` and the delete form displayed with action `/orders/{id}/delete`. -/
theorem canceled_shows_both (orderId : JsValue) (id : String) (dialog : Dialog)
    (hid : toStr orderId = .ok id) :
    ∃ after, present ⟨orderId, .str "CANCELED"⟩ dialog = .ok after ∧
      after.message.textContent = "Do you want to reactivate or delete this order?" ∧
      after.reactivateForm.displayed = true ∧
      getAttr "action" after.reactivateForm.attributes
        = some ("/orders/" ++ id ++ "/reactivate") ∧
      after.deleteForm.displayed = true ∧
      getAttr "action" after.deleteForm.attributes = some ("/orders/" ++ id ++ "/delete") := by
  refine ⟨_, present_canceled orderId id dialog hid, ?_⟩
  simp [presentation, Element.text, displayed_show, displayed_hide, attributes_show,
      attributes_hide, attributes_attr, getAttr_setAttr_self]

/-- C1, at order id "42": the targets are "/orders/42/reactivate" and "/orders/42/delete". -/
theorem canceled_shows_both_witness :
    ∃ after, present ⟨.str "42", .str "CANCELED"⟩ freshDialog = .ok after ∧
      after.message.textContent = "Do you want to reactivate or delete this order?" ∧
      after.reactivateForm.displayed = true ∧
      getAttr "action" after.reactivateForm.attributes = some "/orders/42/reactivate" ∧
      after.deleteForm.displayed = true ∧
      getAttr "action" after.deleteForm.attributes = some "/orders/42/delete" :=
  canceled_shows_both (.str "42") "42" freshDialog rfl

/-- C2: for every order id whose string conversion gives `id`, an event with status exactly
"NEW" on any modal leaves the message "Are you sure you want to cancel this order?", the
reactivate form hidden and the delete form displayed with action `/orders/{id}/cancel`; that
action is not `/orders/{id}/delete`, the value the handler writes first and then overwrites. -/
theorem new_shows_cancel (orderId : JsValue) (id : String) (dialog : Dialog)
    (hid : toStr orderId = .ok id) :
    ∃ after, present ⟨orderId, .str "NEW"⟩ dialog = .ok after ∧
      after.message.textContent = "Are you sure you want to cancel this order?" ∧
      after.reactivateForm.displayed = false ∧
      after.deleteForm.displayed = true ∧
      getAttr "action" after.deleteForm.attributes = some ("/orders/" ++ id ++ "/cancel") ∧
      getAttr "action" after.deleteForm.attributes ≠ some ("/orders/" ++ id ++ "/delete") ∧
      after.deleteForm = ((dialog.deleteForm.attr "action" ("/orders/" ++ id ++ "/delete")).attr
        "action" ("/orders/" ++ id ++ "/cancel")).show := by
  refine ⟨_, present_new orderId id dialog hid, ?_⟩
  simp [presentation, Element.text, displayed_show, displayed_hide, attributes_show,
      attributes_hide, attributes_attr, getAttr_setAttr_self]
  exact cancel_ne_delete _ _

/-- C2, at order id "7": the delete form is displayed with action "/orders/7/cancel". -/
theorem new_shows_cancel_witness :
    ∃ after, present ⟨.str "7", .str "NEW"⟩ freshDialog = .ok after ∧
      after.message.textContent = "Are you sure you want to cancel this order?" ∧
      after.reactivateForm.displayed = false ∧
      after.deleteForm.displayed = true ∧
      getAttr "action" after.deleteForm.attributes = some "/orders/7/cancel" ∧
      getAttr "action" after.deleteForm.attributes ≠ some "/orders/7/delete" ∧
      after.deleteForm = ((freshDialog.deleteForm.attr "action" "/orders/7/delete").attr
        "action" "/orders/7/cancel").show :=
  new_shows_cancel (.str "7") "7" freshDialog rfl

/-- C3: for every order id whose string conversion succeeds and every status other than the
strings "NEW" and "CANCELED" (the empty string, undefined, any other text or value), an
event on any modal leaves the message "This action is not allowed." and both forms hidden. -/
theorem other_status_hides_both (orderId status : JsValue) (id : String) (dialog : Dialog)
    (hid : toStr orderId = .ok id) (hnew : status ≠ .str "NEW")
    (hcan : status ≠ .str "CANCELED") :
    ∃ after, present ⟨orderId, status⟩ dialog = .ok after ∧
      after.message.textContent = "This action is not allowed." ∧
      after.reactivateForm.displayed = false ∧
      after.deleteForm.displayed = false := by
  refine ⟨_, present_other orderId status id dialog hid hnew hcan, ?_⟩
  simp [presentation, Element.text, displayed_show, displayed_hide, attributes_show,
      attributes_hide, attributes_attr, getAttr_setAttr_self]

/-- C3, at order id "9" with status "SHIPPED", and with the statuses "new", "Canceled", the
empty string and undefined. -/
theorem other_status_hides_both_witness :
    (∃ after, present ⟨.str "9", .str "SHIPPED"⟩ freshDialog = .ok after ∧
      after.message.textContent = "This action is not allowed." ∧
      after.reactivateForm.displayed = false ∧
      after.deleteForm.displayed = false) ∧
    (∃ after, present ⟨.str "9", .str "new"⟩ freshDialog = .ok after ∧
      after.message.textContent = "This action is not allowed." ∧
      after.reactivateForm.displayed = false ∧
      after.deleteForm.displayed = false) ∧
    (∃ after, present ⟨.str "9", .str "Canceled"⟩ freshDialog = .ok after ∧
      after.message.textContent = "This action is not allowed." ∧
      after.reactivateForm.displayed = false ∧
      after.deleteForm.displayed = false) ∧
    (∃ after, present ⟨.str "9", .str ""⟩ freshDialog = .ok after ∧
      after.message.textContent = "This action is not allowed." ∧
      after.reactivateForm.displayed = false ∧
      after.deleteForm.displayed = false) ∧
    (∃ after, present ⟨.str "9", .undefined⟩ freshDialog = .ok after ∧
      after.message.textContent = "This action is not allowed." ∧
      after.reactivateForm.displayed = false ∧
      after.deleteForm.displayed = false) :=
  ⟨other_status_hides_both (.str "9") (.str "SHIPPED") "9" freshDialog rfl (by decide) (by decide),
   other_status_hides_both (.str "9") (.str "new") "9" freshDialog rfl (by decide) (by decide),
   other_status_hides_both (.str "9") (.str "Canceled") "9" freshDialog rfl (by decide) (by decide),
   other_status_hides_both (.str "9") (.str "") "9" freshDialog rfl (by decide) (by decide),
   other_status_hides_both (.str "9") .undefined "9" freshDialog rfl (by decide) (by decide)⟩

/-! ## Successive events -/

/-- C4: isolation.  For all contexts A and B whose order ids convert to text and all modals,
the event for A followed by the event for B leaves the same five fields as the event for B on
any other modal; the two targets are the ones templated from the order id of B (the cancel
target under "NEW", the delete target otherwise), so nothing written for A survives. -/
theorem isolation (a b : TriggerContext) (ida idb : String) (dialog other : Dialog)
    (ha : toStr a.orderId = .ok ida) (hb : toStr b.orderId = .ok idb) :
    ∃ afterA afterAB afterB,
      present a dialog = .ok afterA ∧ present b afterA = .ok afterAB ∧
      present b other = .ok afterB ∧
      presentation afterAB = presentation afterB ∧
      (presentation afterAB).primaryActionTarget = some ("/orders/" ++ idb ++ "/reactivate") ∧
      (presentation afterAB).secondaryActionTarget =
        some (if b.status = .str "NEW" then "/orders/" ++ idb ++ "/cancel"
          else "/orders/" ++ idb ++ "/delete") := by
  obtain ⟨afterA, hA, _⟩ := presentation_present a ida dialog ha
  obtain ⟨afterAB, hAB, pAB⟩ := presentation_present b idb afterA hb
  obtain ⟨afterB, hB, pB⟩ := presentation_present b idb other hb
  exact ⟨afterA, afterAB, afterB, hA, hAB, hB, by rw [pAB, pB], by rw [pAB], by rw [pAB]⟩

/-- C4, at "CANCELED" for order a followed by "NEW" for order b: the delete form ends with
action "/orders/b/cancel" and the reactivate form with action "/orders/b/reactivate". -/
theorem isolation_witness :
    ∃ afterA afterAB afterB,
      present ⟨.str "a", .str "CANCELED"⟩ freshDialog = .ok afterA ∧
      present ⟨.str "b", .str "NEW"⟩ afterA = .ok afterAB ∧
      present ⟨.str "b", .str "NEW"⟩ { freshDialog with id := "cancelModal-b" } = .ok afterB ∧
      presentation afterAB = presentation afterB ∧
      (presentation afterAB).primaryActionTarget = some "/orders/b/reactivate" ∧
      (presentation afterAB).secondaryActionTarget = some "/orders/b/cancel" :=
  isolation ⟨.str "a", .str "CANCELED"⟩ ⟨.str "b", .str "NEW"⟩ "a" "b" freshDialog
    { freshDialog with id := "cancelModal-b" } rfl rfl

/-- C5: idempotence.  Running the event for the same context twice in a row gives the same
result as running it once, as an equation between outcomes; and when the order id converts
to text the first run returns a modal, the second run on it returns that same modal, and
the two presentations are equal. -/
theorem present_idempotent (context : TriggerContext) (dialog : Dialog) :
    (present context dialog >>= present context) = present context dialog ∧
    ∀ id, toStr context.orderId = .ok id →
      ∃ once twice, present context dialog = .ok once ∧ present context once = .ok twice ∧
        twice = once ∧ presentation twice = presentation once := by
  have key : ∀ id, toStr context.orderId = .ok id →
      ∃ once, present context dialog = .ok once ∧ present context once = .ok once := by
    intro id hid
    obtain ⟨orderId, status⟩ := context
    simp only at hid
    rcases status_cases status with h | h | ⟨h1, h2⟩
    · subst h
      refine ⟨_, present_canceled orderId id dialog hid, ?_⟩
      rw [present_canceled orderId id _ hid]
      simp [Element.text, show_attr, hide_attr, attr_attr, show_show, hide_hide]
    · subst h
      refine ⟨_, present_new orderId id dialog hid, ?_⟩
      rw [present_new orderId id _ hid]
      simp [Element.text, show_attr, hide_attr, attr_attr, show_show, hide_hide]
    · refine ⟨_, present_other orderId status id dialog hid h1 h2, ?_⟩
      rw [present_other orderId status id _ hid h1 h2]
      simp [Element.text, show_attr, hide_attr, attr_attr, show_show, hide_hide]
  constructor
  · cases hid : toStr context.orderId with
    | error e => simp [present_error context dialog e hid, bind, Except.bind]
    | ok id =>
      obtain ⟨once, h1, h2⟩ := key id hid
      simp [h1, h2, bind, Except.bind]
  · intro id hid
    obtain ⟨once, h1, h2⟩ := key id hid
    exact ⟨once, once, h1, h2, rfl, rfl⟩

/-- C5, at order id "7" with status "NEW". -/
theorem present_idempotent_witness :
    ∃ once twice, present ⟨.str "7", .str "NEW"⟩ freshDialog = .ok once ∧
      present ⟨.str "7", .str "NEW"⟩ once = .ok twice ∧
      twice = once ∧ presentation twice = presentation once :=
  (present_idempotent ⟨.str "7", .str "NEW"⟩ freshDialog).2 "7" rfl

/-- C6: the targets are written at every event, also on a form that ends hidden.  For every
order id whose string conversion gives `id` and every status, after the event the action of
the reactivate form is `/orders/{id}/reactivate`, and the action of the delete form is
`/orders/{id}/cancel` when the status is "NEW" and `/orders/{id}/delete` for every other
status. -/
theorem targets_recomputed (orderId status : JsValue) (id : String) (dialog : Dialog)
    (hid : toStr orderId = .ok id) :
    ∃ after, present ⟨orderId, status⟩ dialog = .ok after ∧
      getAttr "action" after.reactivateForm.attributes
        = some ("/orders/" ++ id ++ "/reactivate") ∧
      (status = .str "NEW" →
        getAttr "action" after.deleteForm.attributes = some ("/orders/" ++ id ++ "/cancel")) ∧
      (status ≠ .str "NEW" →
        getAttr "action" after.deleteForm.attributes = some ("/orders/" ++ id ++ "/delete")) := by
  obtain ⟨after, h, p⟩ := presentation_present ⟨orderId, status⟩ id dialog hid
  have p1 := congrArg DialogPresentation.primaryActionTarget p
  have p2 := congrArg DialogPresentation.secondaryActionTarget p
  simp only [presentation] at p1 p2
  refine ⟨after, h, p1, ?_, ?_⟩
  · intro hs
    rw [p2, if_pos hs]
  · intro hs
    rw [p2, if_neg hs]

/-- C6, on a form that ends hidden: order id "9" with the unrecognised status "SHIPPED"
leaves both forms hidden with actions "/orders/9/reactivate" and "/orders/9/delete". -/
theorem targets_recomputed_witness :
    ∃ after, present ⟨.str "9", .str "SHIPPED"⟩ freshDialog = .ok after ∧
      getAttr "action" after.reactivateForm.attributes = some "/orders/9/reactivate" ∧
      (JsValue.str "SHIPPED" = .str "NEW" →
        getAttr "action" after.deleteForm.attributes = some "/orders/9/cancel") ∧
      (JsValue.str "SHIPPED" ≠ .str "NEW" →
        getAttr "action" after.deleteForm.attributes = some "/orders/9/delete") :=
  targets_recomputed (.str "9") (.str "SHIPPED") "9" freshDialog rfl

/-! ## No exception, and the frame -/

/-- C7, as stated, fails: with an order id that is an object whose string conversion
raises (an object parsed from the data attribute whose own `toString` is not a function),
the first template literal raises a TypeError and the event returns no modal. -/
theorem present_raises_on_object :
    present ⟨.object none, .str "NEW"⟩ freshDialog = .error .typeError ∧
    ¬ ∃ after, present ⟨.object none, .str "NEW"⟩ freshDialog = .ok after := by
  have h : present ⟨.object none, .str "NEW"⟩ freshDialog = .error .typeError := rfl
  refine ⟨h, ?_⟩
  rintro ⟨after, hafter⟩
  rw [h] at hafter
  cases hafter

/-- C7, amended: the event raises only on an order id that is an object whose string
conversion raises.  For every status and every modal the event returns a modal for every
other order id, in particular for every string (empty or garbled) and for an absent order
id; with an absent order id the targets are "/orders/undefined/reactivate" and
"/orders/undefined/cancel" or "/orders/undefined/delete", and with an empty order id they are
"/orders//reactivate" and "/orders//cancel" or "/orders//delete".  On the raising object the
event ends in a TypeError. -/
theorem present_never_raises (status : JsValue) (dialog : Dialog) :
    (∀ orderId, orderId ≠ .object none →
      ∃ after, present ⟨orderId, status⟩ dialog = .ok after) ∧
    (∀ text : String, ∃ after, present ⟨.str text, status⟩ dialog = .ok after ∧
      (presentation after).primaryActionTarget = some ("/orders/" ++ text ++ "/reactivate") ∧
      (presentation after).secondaryActionTarget =
        some (if status = .str "NEW" then "/orders/" ++ text ++ "/cancel"
          else "/orders/" ++ text ++ "/delete")) ∧
    (∃ after, present ⟨.undefined, status⟩ dialog = .ok after ∧
      (presentation after).primaryActionTarget = some "/orders/undefined/reactivate" ∧
      (presentation after).secondaryActionTarget =
        some (if status = .str "NEW" then "/orders/undefined/cancel"
          else "/orders/undefined/delete")) ∧
    (∃ after, present ⟨.str "", status⟩ dialog = .ok after ∧
      (presentation after).primaryActionTarget = some "/orders//reactivate" ∧
      (presentation after).secondaryActionTarget =
        some (if status = .str "NEW" then "/orders//cancel" else "/orders//delete")) ∧
    present ⟨.object none, status⟩ dialog = .error .typeError := by
  have key : ∀ orderId id, toStr orderId = .ok id →
      ∃ after, present ⟨orderId, status⟩ dialog = .ok after ∧
        (presentation after).primaryActionTarget = some ("/orders/" ++ id ++ "/reactivate") ∧
        (presentation after).secondaryActionTarget =
          some (if status = .str "NEW" then "/orders/" ++ id ++ "/cancel"
            else "/orders/" ++ id ++ "/delete") := by
    intro orderId id hid
    obtain ⟨after, h, p⟩ := presentation_present ⟨orderId, status⟩ id dialog hid
    exact ⟨after, h, by rw [p], by rw [p]⟩
  refine ⟨?_, fun text => key (.str text) text rfl, key .undefined "undefined" rfl,
    key (.str "") "" rfl, present_error ⟨.object none, status⟩ dialog .typeError rfl⟩
  intro orderId hne
  cases hid : toStr orderId with
  | ok id =>
    obtain ⟨after, h, _⟩ := key orderId id hid
    exact ⟨after, h⟩
  | error e =>
    exfalso
    apply hne
    cases orderId with
    | object text =>
      cases text with
      | none => rfl
      | some t => simp [toStr] at hid
    | bool b => cases b <;> simp [toStr] at hid
    | _ => simp [toStr] at hid

/-- C7, amended, at a garbled order id and an absent status: the event returns. -/
theorem present_never_raises_witness :
    ∃ after, present ⟨.str "4 2/../?x", .undefined⟩ freshDialog = .ok after :=
  (present_never_raises .undefined freshDialog).1 (.str "4 2/../?x") (by decide)

/-- C8: frame.  When the order id converts to text the handler returns a page in which the
data of the button (order id and status) is unchanged, and in the modal only the message
text and, on each form, the `action` attribute and the visibility change, the visibility
being the `display` declaration of the inline style together with the display jQuery
remembers for the form.  Unchanged are the id of the modal; the attributes, the inline
style, the style-sheet state and the remembered display of the message; and on both forms
the text content, the style-sheet state, every attribute other than `action` and `style`,
and every declaration of the inline style other than `display`. -/
theorem handler_frame (page : Page) (id : String) (hid : toStr page.button.orderId = .ok id) :
    ∃ after, handler page = .ok after ∧
      after.button = page.button ∧
      after.modal.id = page.modal.id ∧
      after.modal.message.attributes = page.modal.message.attributes ∧
      after.modal.message.style = page.modal.message.style ∧
      after.modal.message.cascadeHidden = page.modal.message.cascadeHidden ∧
      after.modal.message.savedDisplay = page.modal.message.savedDisplay ∧
      after.modal.reactivateForm.textContent = page.modal.reactivateForm.textContent ∧
      after.modal.deleteForm.textContent = page.modal.deleteForm.textContent ∧
      after.modal.reactivateForm.cascadeHidden = page.modal.reactivateForm.cascadeHidden ∧
      after.modal.deleteForm.cascadeHidden = page.modal.deleteForm.cascadeHidden ∧
      (∀ name, name ≠ "action" →
        getAttr name after.modal.reactivateForm.attributes
          = getAttr name page.modal.reactivateForm.attributes) ∧
      (∀ name, name ≠ "action" →
        getAttr name after.modal.deleteForm.attributes
          = getAttr name page.modal.deleteForm.attributes) ∧
      (∀ property, property ≠ "display" →
        getAttr property after.modal.reactivateForm.style
          = getAttr property page.modal.reactivateForm.style) ∧
      (∀ property, property ≠ "display" →
        getAttr property after.modal.deleteForm.style
          = getAttr property page.modal.deleteForm.style) := by
  rcases status_cases page.button.status with h | h | ⟨h1, h2⟩
  · refine ⟨_, handler_canceled page id hid h, rfl, rfl, rfl, rfl, rfl, rfl,
      ?_, ?_, ?_, ?_, ?_, ?_, ?_, ?_⟩
    · simp [textContent_show, Element.attr]
    · simp [textContent_show, Element.attr]
    · simp [cascadeHidden_show, Element.attr]
    · simp [cascadeHidden_show, Element.attr]
    · intro name hn
      simp [attributes_show, attributes_attr, getAttr_setAttr_of_ne hn]
    · intro name hn
      simp [attributes_show, attributes_attr, getAttr_setAttr_of_ne hn]
    · intro property hp
      simp [style_show_of_ne _ hp, Element.attr]
    · intro property hp
      simp [style_show_of_ne _ hp, Element.attr]
  · refine ⟨_, handler_new page id hid h, rfl, rfl, rfl, rfl, rfl, rfl,
      ?_, ?_, ?_, ?_, ?_, ?_, ?_, ?_⟩
    · simp [textContent_hide, Element.attr]
    · simp [textContent_show, Element.attr]
    · simp [cascadeHidden_hide, Element.attr]
    · simp [cascadeHidden_show, Element.attr]
    · intro name hn
      simp [attributes_hide, attributes_attr, getAttr_setAttr_of_ne hn]
    · intro name hn
      simp [attributes_show, attributes_attr, getAttr_setAttr_of_ne hn]
    · intro property hp
      simp [style_hide_of_ne _ hp, Element.attr]
    · intro property hp
      simp [style_show_of_ne _ hp, Element.attr]
  · refine ⟨_, handler_other page id hid h1 h2, rfl, rfl, rfl, rfl, rfl, rfl,
      ?_, ?_, ?_, ?_, ?_, ?_, ?_, ?_⟩
    · simp [textContent_hide, Element.attr]
    · simp [textContent_hide, Element.attr]
    · simp [cascadeHidden_hide, Element.attr]
    · simp [cascadeHidden_hide, Element.attr]
    · intro name hn
      simp [attributes_hide, attributes_attr, getAttr_setAttr_of_ne hn]
    · intro name hn
      simp [attributes_hide, attributes_attr, getAttr_setAttr_of_ne hn]
    · intro property hp
      simp [style_hide_of_ne _ hp, Element.attr]
    · intro property hp
      simp [style_hide_of_ne _ hp, Element.attr]

/-- C8, at order id "7" with status "NEW" on the styled sample modal, whose forms carry
inline declarations of their own. -/
theorem handler_frame_witness :
    ∃ after, handler ⟨⟨.str "7", .str "NEW"⟩, styledDialog⟩ = .ok after ∧
      after.button = ⟨.str "7", .str "NEW"⟩ ∧
      after.modal.id = styledDialog.id ∧
      after.modal.message.attributes = styledDialog.message.attributes ∧
      after.modal.message.style = styledDialog.message.style ∧
      after.modal.message.cascadeHidden = styledDialog.message.cascadeHidden ∧
      after.modal.message.savedDisplay = styledDialog.message.savedDisplay ∧
      after.modal.reactivateForm.textContent = styledDialog.reactivateForm.textContent ∧
      after.modal.deleteForm.textContent = styledDialog.deleteForm.textContent ∧
      after.modal.reactivateForm.cascadeHidden = styledDialog.reactivateForm.cascadeHidden ∧
      after.modal.deleteForm.cascadeHidden = styledDialog.deleteForm.cascadeHidden ∧
      (∀ name, name ≠ "action" →
        getAttr name after.modal.reactivateForm.attributes
          = getAttr name styledDialog.reactivateForm.attributes) ∧
      (∀ name, name ≠ "action" →
        getAttr name after.modal.deleteForm.attributes
          = getAttr name styledDialog.deleteForm.attributes) ∧
      (∀ property, property ≠ "display" →
        getAttr property after.modal.reactivateForm.style
          = getAttr property styledDialog.reactivateForm.style) ∧
      (∀ property, property ≠ "display" →
        getAttr property after.modal.deleteForm.style
          = getAttr property styledDialog.deleteForm.style) :=
  handler_frame ⟨⟨.str "7", .str "NEW"⟩, styledDialog⟩ "7" rfl

/-! ## Reachable states -/

theorem presentAll_append (earlier later : List TriggerContext) (dialog : Dialog) :
    presentAll (earlier ++ later) dialog = (presentAll earlier dialog >>= presentAll later) := by
  induction earlier generalizing dialog with
  | nil => simp [presentAll, bind, Except.bind, pure, Except.pure]
  | cons context rest ih =>
    simp only [List.cons_append, presentAll]
    cases h : present context dialog with
    | error e => simp [bind, Except.bind]
    | ok next => simpa [bind, Except.bind] using ih next

/-- The last event of a sequence that returned started from some modal and returned. -/
theorem presentAll_last (earlier : List TriggerContext) (last : TriggerContext)
    (initial after : Dialog) (h : presentAll (earlier ++ [last]) initial = .ok after) :
    ∃ before, present last before = .ok after := by
  rw [presentAll_append] at h
  cases hb : presentAll earlier initial with
  | error e => simp [hb, bind, Except.bind] at h
  | ok before =>
    refine ⟨before, ?_⟩
    cases hp : present last before with
    | error e => simp [hb, hp, presentAll, bind, Except.bind] at h
    | ok result =>
      simp [hb, hp, presentAll, bind, Except.bind, pure, Except.pure] at h
      rw [h]

theorem not_endsIn_of_ne (x tail ending : String) (hlen : tail.data.length = ending.data.length)
    (hne : tail ≠ ending) : ¬ endsIn (x ++ tail) ending := by
  intro h
  exact hne (endsIn_unique _ _ _ (endsIn_append x tail tail (List.suffix_refl _)) h hlen)

/-- C9: in every modal reached by one or more events, from any initial modal and any
sequence of contexts, the message is one of the three fixed texts; the reactivate form is
displayed iff the message is the reactivate-or-delete prompt, iff the last status was
"CANCELED"; the delete form is displayed iff the last status was "NEW" or "CANCELED"; a
displayed reactivate form implies a displayed delete form; and when the delete form is
displayed its action ends in "/cancel" exactly when the reactivate form is hidden and in
"/delete" exactly when the reactivate form is displayed. -/
theorem reached_invariant (earlier : List TriggerContext) (last : TriggerContext)
    (initial after : Dialog) (h : presentAll (earlier ++ [last]) initial = .ok after) :
    (after.message.textContent = "Do you want to reactivate or delete this order?" ∨
      after.message.textContent = "Are you sure you want to cancel this order?" ∨
      after.message.textContent = "This action is not allowed.") ∧
    (after.reactivateForm.displayed = true ↔
      after.message.textContent = "Do you want to reactivate or delete this order?") ∧
    (after.message.textContent = "Do you want to reactivate or delete this order?" ↔
      last.status = .str "CANCELED") ∧
    (after.deleteForm.displayed = true ↔
      (last.status = .str "NEW" ∨ last.status = .str "CANCELED")) ∧
    (after.reactivateForm.displayed = true → after.deleteForm.displayed = true) ∧
    (after.deleteForm.displayed = true →
      ∃ action, getAttr "action" after.deleteForm.attributes = some action ∧
        (endsIn action "/cancel" ↔ after.reactivateForm.displayed = false) ∧
        (endsIn action "/delete" ↔ after.reactivateForm.displayed = true)) := by
  obtain ⟨before, hp⟩ := presentAll_last earlier last initial after h
  obtain ⟨orderId, status⟩ := last
  cases hid : toStr orderId with
  | error e =>
    rw [present_error ⟨orderId, status⟩ before e hid] at hp
    cases hp
  | ok id =>
    rcases status_cases status with hs | hs | ⟨h1, h2⟩
    · subst hs
      rw [present_canceled orderId id before hid] at hp
      injection hp with hp
      subst hp
      simp only [Element.text, displayed_show, displayed_hide, attributes_show, attributes_hide,
        attributes_attr, getAttr_setAttr_self]
      refine ⟨by simp, by simp, by simp, by simp, by simp, fun _ => ⟨_, rfl, ?_, ?_⟩⟩
      · simpa using not_endsIn_of_ne _ "/delete" "/cancel" (by decide) (by decide)
      · simpa using endsIn_append _ "/delete" "/delete" (List.suffix_refl _)
    · subst hs
      rw [present_new orderId id before hid] at hp
      injection hp with hp
      subst hp
      simp only [Element.text, displayed_show, displayed_hide, attributes_show, attributes_hide,
        attributes_attr, getAttr_setAttr_self]
      refine ⟨by simp, by simp, by simp, by simp, by simp, fun _ => ⟨_, rfl, ?_, ?_⟩⟩
      · simpa using endsIn_append _ "/cancel" "/cancel" (List.suffix_refl _)
      · simpa using not_endsIn_of_ne _ "/cancel" "/delete" (by decide) (by decide)
    · rw [present_other orderId status id before hid h1 h2] at hp
      injection hp with hp
      subst hp
      simp only [Element.text, displayed_show, displayed_hide, attributes_show, attributes_hide,
        attributes_attr, getAttr_setAttr_self]
      refine ⟨by simp, by simp, by simp [h2], by simp [h1, h2], by simp, by simp⟩

/-- C9, at the modal reached from the sample modal by "CANCELED" for order 1 and then
"NEW" for order 2. -/
theorem reached_invariant_witness :
    presentAll ([⟨.str "1", .str "CANCELED"⟩] ++ [⟨.str "2", .str "NEW"⟩]) freshDialog
      = .ok sampleAfter ∧
    (sampleAfter.message.textContent = "Do you want to reactivate or delete this order?" ∨
      sampleAfter.message.textContent = "Are you sure you want to cancel this order?" ∨
      sampleAfter.message.textContent = "This action is not allowed.") ∧
    (sampleAfter.reactivateForm.displayed = true ↔
      sampleAfter.message.textContent = "Do you want to reactivate or delete this order?") ∧
    (sampleAfter.message.textContent = "Do you want to reactivate or delete this order?" ↔
      JsValue.str "NEW" = .str "CANCELED") ∧
    (sampleAfter.deleteForm.displayed = true ↔
      (JsValue.str "NEW" = .str "NEW" ∨ JsValue.str "NEW" = .str "CANCELED")) ∧
    (sampleAfter.reactivateForm.displayed = true → sampleAfter.deleteForm.displayed = true) ∧
    (sampleAfter.deleteForm.displayed = true →
      ∃ action, getAttr "action" sampleAfter.deleteForm.attributes = some action ∧
        (endsIn action "/cancel" ↔ sampleAfter.reactivateForm.displayed = false) ∧
        (endsIn action "/delete" ↔ sampleAfter.reactivateForm.displayed = true)) :=
  ⟨rfl, reached_invariant [⟨.str "1", .str "CANCELED"⟩] ⟨.str "2", .str "NEW"⟩ freshDialog
    sampleAfter rfl⟩

/-! ## Targets of different orders and kinds -/

theorem template_ok (before : String) (v : JsValue) (after x : String)
    (h : template before v after = .ok x) : ∃ text, toStr v = .ok text ∧ x = before ++ text ++ after := by
  unfold template at h
  cases hv : toStr v with
  | error e => simp [hv, bind, Except.bind] at h
  | ok text =>
    simp [hv, bind, Except.bind, pure, Except.pure] at h
    exact ⟨text, rfl, h.symm⟩

/-- C10: targets never collide.  For string order ids a and b, equal reactivate targets force
a = b, and likewise for the delete and the cancel targets; and for any order ids whose targets
are produced, a reactivate target is never a delete target or a cancel target, and a cancel
target is never a delete target. -/
theorem targets_never_collide :
    (∀ a b : String, template "/orders/" (.str a) "/reactivate"
        = template "/orders/" (.str b) "/reactivate" → a = b) ∧
    (∀ a b : String, template "/orders/" (.str a) "/delete"
        = template "/orders/" (.str b) "/delete" → a = b) ∧
    (∀ a b : String, template "/orders/" (.str a) "/cancel"
        = template "/orders/" (.str b) "/cancel" → a = b) ∧
    (∀ (a b : JsValue) (x y : String), template "/orders/" a "/reactivate" = .ok x →
        template "/orders/" b "/delete" = .ok y → x ≠ y) ∧
    (∀ (a b : JsValue) (x y : String), template "/orders/" a "/reactivate" = .ok x →
        template "/orders/" b "/cancel" = .ok y → x ≠ y) ∧
    (∀ (a b : JsValue) (x y : String), template "/orders/" a "/cancel" = .ok x →
        template "/orders/" b "/delete" = .ok y → x ≠ y) := by
  have inj : ∀ (ending a b : String), template "/orders/" (.str a) ending
      = template "/orders/" (.str b) ending → a = b := by
    intro ending a b h
    simp only [template, toStr, bind, Except.bind, pure, Except.pure, Except.ok.injEq] at h
    exact target_inj _ _ _ _ h
  refine ⟨inj _, inj _, inj _, ?_, ?_, ?_⟩
  · intro a b x y hx hy
    obtain ⟨ta, _, rfl⟩ := template_ok _ _ _ _ hx
    obtain ⟨tb, _, rfl⟩ := template_ok _ _ _ _ hy
    exact reactivate_ne_delete _ _
  · intro a b x y hx hy
    obtain ⟨ta, _, rfl⟩ := template_ok _ _ _ _ hx
    obtain ⟨tb, _, rfl⟩ := template_ok _ _ _ _ hy
    exact reactivate_ne_cancel _ _
  · intro a b x y hx hy
    obtain ⟨ta, _, rfl⟩ := template_ok _ _ _ _ hx
    obtain ⟨tb, _, rfl⟩ := template_ok _ _ _ _ hy
    exact cancel_ne_delete _ _

/-- C10, at order 7: the cancel target "/orders/7/cancel" is not the delete target
"/orders/7/delete". -/
theorem targets_never_collide_witness : "/orders/7/cancel" ≠ "/orders/7/delete" :=
  targets_never_collide.2.2.2.2.2 (.str "7") (.str "7") "/orders/7/cancel" "/orders/7/delete"
    rfl rfl

end ModalHandler
